import Mathlib

/-!
Shallow embedding of `reegis_tools/scenario_tools.py` (the reegis scenario
tools module) and proofs about its locally implemented logic: the
duplicate-rejecting node registry (`NodeDict`), energy-system time-index
initialisation, the table completeness check, and the CSV/Excel round trip
of the table collection.

Python dictionaries are modelled as association lists in insertion order
(updating an existing key keeps its position, as Python dicts do); Python
`None` is modelled by `Option.none`; exceptions are modelled with
`Except String`.
-/

/-- A Python single quote character as a string, used in error messages. -/
def pySquote : String := "\x27"

/-- A Python value usable as `Scenario.year`: an integer, a string, or
`None`.  (Other shapes behave like strings for the purposes of the
leap-year check: the modulo operator raises `TypeError`.) -/
inductive YearVal where
  | pyInt (n : Int)
  | pyStr (s : String)
  | pyNone
deriving DecidableEq

/-- Python `str()` of a year value, as interpolated by `str.format`. -/
def pyStrOf : YearVal → String
  | .pyInt n => toString n
  | .pyStr s => s
  | .pyNone => "None"

/-- Function `calendar.isleap` from the Python standard library:
`year % 4 == 0 and (year % 100 != 0 or year % 400 == 0)`.
(`a % n == 0` agrees between Python's and Lean's `Int` remainder.) -/
def isleap (year : Int) : Bool :=
  year % 4 == 0 && (year % 100 != 0 || year % 400 == 0)

/-- Function `calendar.isleap` applied to a Python-level year value.  For a
non-integer year the modulo operation raises `TypeError` (for a string
this is Python's legacy `%` formatting operator, which raises `TypeError`
for ordinary strings without format specifiers; strings made of format
specifiers are outside this development's scope). -/
def isleapPy : YearVal → Except String Bool
  | .pyInt n => .ok (isleap n)
  | .pyStr _ => .error "TypeError"
  | .pyNone => .error "TypeError"

/-- Python `dict` lookup (`dict.get` / subscript on a present key). -/
def pyLookup {κ β : Type} [DecidableEq κ] (d : List (κ × β)) (k : κ) : Option β :=
  match d with
  | [] => Option.none
  | (k', v) :: rest => if k' = k then some v else pyLookup rest k

/-- Python `dict.__setitem__`: overwrite in place if the key is present
(the entry keeps its position, as in CPython), append otherwise. -/
def dictSet {κ β : Type} [DecidableEq κ] (d : List (κ × β)) (k : κ) (v : β) :
    List (κ × β) :=
  match d with
  | [] => [(k, v)]
  | (k', v') :: rest =>
      if k' = k then (k, v) :: rest else (k', v') :: dictSet rest k v

/-- The `NodeDict` registry: a dict from string identifiers to node
objects.  A stored value of `Option.none` models a key mapped to Python
`None`. -/
def NodeDict (ν : Type) : Type := List (String × Option ν)

/-- Method `dict.get(key)`: `None` when the key is absent, the stored value
otherwise (which may itself be `None`). -/
def NodeDict.get {ν : Type} (d : NodeDict ν) (k : String) : Option ν :=
  (pyLookup d k).join

/-- The `KeyError` message raised by `NodeDict.__setitem__`:
`"Key '<key>' already exists. Duplicate keys are not allowed in a node
dictionary."`. -/
def duplicateMsg (k : String) : String :=
  "Key " ++ pySquote ++ k ++ pySquote ++
    " already exists. Duplicate keys are not allowed in a node dictionary."

/-- Method `NodeDict.__setitem__`: store the item if `super().get(key) is None`,
otherwise raise `KeyError` with `duplicateMsg`. -/
def NodeDict.setItem {ν : Type} (d : NodeDict ν) (k : String) (item : Option ν) :
    Except String (NodeDict ν) :=
  if (NodeDict.get d k).isNone then
    .ok (dictSet d k item)
  else
    .error (duplicateMsg k)

/-- One value stored under a key of `EnergySystem.results` by
`Scenario.solve` or `Scenario.restore_es`.  `α` is the opaque payload type
of the external `oemof.outputlib` processing functions; the `meta` facet
additionally records the three entries `solve` writes into it afterwards
(`in_location`, `file_date`, `oemof_version`). -/
inductive Facet (α : Type) where
  | mainF (r : α)
  | metaF (r : α) (inLoc : Option String) (fileDate : Option α) (ver : Option String)
  | paramF (r : α)
  | scenF (name : String) (stamp : α) (year : YearVal)
deriving DecidableEq

/-- The external `solph.EnergySystem`, as far as this module touches it:
the number of periods of its time index (`pd.date_range(..., periods=n)`
yields an index of exactly `n` steps; parsing of the start-date string is
delegated to pandas and not modelled), the nodes added via `es.add`, and
the `results` dict.  A fresh system has no nodes and no results. -/
structure EnergySystem (ν α : Type) where
  timeindexPeriods : Nat
  nodes : List (Option ν)
  results : List (String × Facet α)
deriving DecidableEq

/-- A tabular dataset (pandas DataFrame): a list of named columns, each a
list of cells where `Option.none` models a missing value (NaN). -/
abbrev Table : Type := List (String × List (Option Int))

/-- The `Scenario` object state (plotting helpers aside).  `model` is the
external `solph.Model`, kept opaque. -/
structure Scenario (ν α : Type) where
  name : String := "unnamed_scenario"
  table_collection : List (String × Table) := []
  year : YearVal := .pyNone
  ignore_errors : Bool := false
  round_values : Int := 0
  model : Option Unit := Option.none
  es : Option (EnergySystem ν α) := Option.none
  results : Option (Facet α) := Option.none
  debug : Option Bool := Option.none
  location : Option String := Option.none

/-- Method `Scenario.initialise_energy_system`: 3 time steps when `debug is True`;
otherwise 8784 steps for a leap year, 8760 for a non-leap year, and a
`TypeError` naming the year when `calendar.isleap` raises. -/
def initialise_energy_system {ν α : Type} (debug : Option Bool) (year : YearVal) :
    Except String (EnergySystem ν α) :=
  if debug = some true then
    .ok ⟨3, [], []⟩
  else
    match isleapPy year with
    | .error _ =>
        .error ("You cannot create an EnergySystem with self.year = " ++ pyStrOf year)
    | .ok true => .ok ⟨8784, [], []⟩
    | .ok false => .ok ⟨8760, [], []⟩

/-- Method `Scenario.add_nodes`: initialise the energy system first when `es` is
`None` (via `initialise_es()` with the scenario's current year and debug
settings), then `es.add(*nodes.values())`. -/
def add_nodes {ν α : Type} (s : Scenario ν α) (nodes : NodeDict ν) :
    Except String (Scenario ν α) :=
  match s.es with
  | Option.none =>
      match initialise_energy_system s.debug s.year with
      | .error e => .error e
      | .ok es0 =>
          .ok { s with es := some { es0 with nodes := es0.nodes ++ nodes.map Prod.snd } }
  | some es =>
      .ok { s with es := some { es with nodes := es.nodes ++ nodes.map Prod.snd } }

/-- Method `Scenario.scenario_info`: the dict with keys `name`, `datetime` and `year`;
`datetime.datetime.now()` is the external clock value `now`. -/
def scenario_info {ν α : Type} (s : Scenario ν α) (now : α) : Facet α :=
  .scenF s.name now s.year

/-- In-place mutation of the object stored under the `"meta"` key of a
results dict (the subscript assignments on `es.results` at key `meta`). -/
def setMetaEntry {α : Type} (r : List (String × Facet α)) (upd : Facet α → Facet α) :
    List (String × Facet α) :=
  r.map (fun p => if p.1 = "meta" then (p.1, upd p.2) else p)

/-- Method `Scenario.solve`: after the external solver returns, store the four
facets under the keys `main`, `meta`, `param` and `scenario` (in that
order), write `in_location`, `file_date` and `oemof_version` into the
`meta` dict, and set `self.results` to the entry at key `main`.  The opaque
inputs are the outputs of the external calls (`outputlib.processing.*`,
`os.path.getmtime`, `datetime.now`, `logger.get_version`).  When `model`,
`es` or `location` is `None` the corresponding attribute access raises,
modelled as `Option.none` — the claim only concerns runs that complete. -/
def solve {ν α : Type} (s : Scenario ν α)
    (procMain procMeta procParam fileDate now : α) (oemofVersion : String) :
    Option (Scenario ν α) :=
  match s.model, s.es, s.location with
  | some _, some es, some loc =>
      let r1 := dictSet es.results "main" (Facet.mainF procMain)
      let r2 := dictSet r1 "meta" (Facet.metaF procMeta Option.none Option.none Option.none)
      let r3 := dictSet r2 "param" (Facet.paramF procParam)
      let r4 := dictSet r3 "scenario" (scenario_info s now)
      let r5 := setMetaEntry r4 (fun f => match f with
        | .metaF r _ fd v => .metaF r (some loc) fd v
        | f => f)
      let r6 := setMetaEntry r5 (fun f => match f with
        | .metaF r il _ v => .metaF r il (some fileDate) v
        | f => f)
      let r7 := setMetaEntry r6 (fun f => match f with
        | .metaF r il fd _ => .metaF r il fd (some oemofVersion)
        | f => f)
      some { s with es := some { es with results := r7 }, results := pyLookup r7 "main" }
  | _, _, _ => Option.none

/-- The column-collecting loop of `Scenario.check_table`:
`c = []; for column in columns: if column has a null: c.append(column)`. -/
def nullColumns (df : Table) : List String :=
  df.foldl (fun c p => if p.2.any (fun x => x.isNone) then c ++ [p.1] else c) []

/-- Python `str()` of a list of strings: bracketed, comma separated,
each element single-quoted. -/
def pyStrList (l : List String) : String :=
  "[" ++ String.intercalate ", " (l.map (fun s => pySquote ++ s ++ pySquote)) ++ "]"

/-- The `ValueError` message of `Scenario.check_table`:
`"Nan Values in the <table> table (columns: <cols>)."`. -/
def checkMsg (name : String) (cols : List String) : String :=
  "Nan Values in the " ++ name ++ " table (columns: " ++ pyStrList cols ++ ")."

/-- Method `Scenario.check_table`: raise `ValueError` when the looked-up table
has any missing value, naming the table and the offending columns;
otherwise return silently.  (An absent table name raises `KeyError` from
the dict subscript.) -/
def check_table {ν α : Type} (s : Scenario ν α) (table_name : String) :
    Except String Unit :=
  match pyLookup s.table_collection table_name with
  | Option.none => .error ("KeyError: " ++ pySquote ++ table_name ++ pySquote)
  | some df =>
      if df.any (fun p => p.2.any (fun x => x.isNone)) then
        .error (checkMsg table_name (nullColumns df))
      else
        .ok ()

/-- Python `name.replace(' ', '_')` for a single-character pattern. -/
def strReplaceSpace (s : String) : String :=
  ⟨s.data.map (fun c => if c = ' ' then '_' else c)⟩

/-- The file name written by `Scenario.to_csv` for a table name. -/
def csvFileName (name : String) : String :=
  strReplaceSpace name ++ ".csv"

/-- Python `file[-4:] == '.csv'` (for a short name, `file[-4:]` is the
whole string, matching `List.drop` with truncated subtraction). -/
def pyEndsCsv (f : String) : Bool :=
  decide (f.data.drop (f.data.length - 4) = ".csv".data)

/-- Python `file[:-4]`. -/
def pyDropExt (f : String) : String :=
  ⟨f.data.take (f.data.length - 4)⟩

/-- Method `Scenario.to_csv`: write each table to `<name with spaces replaced by
underscores>.csv` inside the target directory; writing an existing file
name overwrites it.  The directory is modelled as a dict from file name to
file content, starting empty. -/
def to_csv (tc : List (String × Table)) : List (String × Table) :=
  tc.foldl (fun dir p => dictSet dir (csvFileName p.1) p.2) []

/-- Method `Scenario.load_csv`: for every file of the directory ending in
`.csv`, store its parsed content under the file name without the
extension.  Parsing (`pd.read_csv` with `index_col=[0], header=[0,1]`) is
the inverse of `df.to_csv` and is modelled as faithful. -/
def load_csv (dir : List (String × Table)) : List (String × Table) :=
  dir.filterMap (fun p => if pyEndsCsv p.1 then some (pyDropExt p.1, p.2) else Option.none)

/-- Method `Scenario.to_excel`: write one sheet per table, in
`sorted(table_collection.items())` order (Python's `sorted` compares the
name components; it is a stable comparison sort, modelled by insertion
sort on the names). -/
def to_excel (tc : List (String × Table)) : List (String × Table) :=
  List.insertionSort (fun a b => a.1 ≤ b.1) tc

/-- Method `Scenario.load_excel`: parse every sheet of the workbook, in workbook
order.  Sheet parsing (`xls.parse` with `index_col=[0], header=[0,1]`) is
the inverse of `df.to_excel` and is modelled as faithful. -/
def load_excel (sheets : List (String × Table)) : List (String × Table) :=
  sheets

/-! ### Helper lemmas -/

theorem pyLookup_dictSet_self {κ β : Type} [DecidableEq κ] (d : List (κ × β)) (k : κ) (v : β) :
    pyLookup (dictSet d k v) k = some v := by
  induction d with
  | nil => simp [dictSet, pyLookup]
  | cons p rest ih =>
      obtain ⟨k', v'⟩ := p
      by_cases h : k' = k
      · simp [dictSet, pyLookup, h]
      · simp [dictSet, pyLookup, h, ih]

theorem dictSet_append_of_not_mem {κ β : Type} [DecidableEq κ] (d : List (κ × β)) (k : κ)
    (v : β) (h : ∀ p ∈ d, p.1 ≠ k) :
    dictSet d k v = d ++ [(k, v)] := by
  induction d with
  | nil => rfl
  | cons p rest ih =>
      obtain ⟨k', v'⟩ := p
      have hk : k' ≠ k := h (k', v') (by simp)
      simp [dictSet, hk, ih (fun q hq => h q (by simp [hq]))]

/-! ### Claims about the node registry -/

/-- C1 counterexample: the claim quantifies over every pair of node values,
but when the first registered value is Python `None`, the duplicate check
(`super().get(key) is None`) treats the key as absent: a second
registration for the same key succeeds silently instead of failing, and
the lookup afterwards returns the second value, not the first. -/
theorem nodeDict_first_write_wins_counterexample :
    NodeDict.setItem ([] : NodeDict Nat) "a" Option.none = .ok [("a", Option.none)] ∧
    NodeDict.setItem [("a", (Option.none : Option Nat))] "a" (some 0) =
      .ok [("a", some 0)] ∧
    (Option.none : Option Nat) ≠ some 0 :=
  ⟨rfl, rfl, by decide⟩

/-- C1 (amended): for every identifier `k` and node values `v1 ≠ v2` with
`v1` not Python `None`: registering `k → v1` in a fresh registry succeeds,
a second registration `k → v2` fails with the duplicate-key error, and the
lookup of `k` afterwards still returns `v1` (the failing call raises
before touching the mapping, so the registry is left unchanged). -/
theorem nodeDict_first_write_wins {ν : Type} (k : String) (x : ν) (v2 : Option ν)
    (hne : some x ≠ v2) :
    NodeDict.setItem ([] : NodeDict ν) k (some x) = .ok [(k, some x)] ∧
    NodeDict.setItem [(k, some x)] k v2 = .error (duplicateMsg k) ∧
    pyLookup [(k, some x)] k = some (some x) := by
  refine ⟨rfl, ?_, ?_⟩
  · simp [NodeDict.setItem, NodeDict.get, pyLookup]
  · simp [pyLookup]

theorem nodeDict_first_write_wins_witness :
    NodeDict.setItem ([] : NodeDict Nat) "a" (some 1) = .ok [("a", some 1)] ∧
    NodeDict.setItem [("a", (some 1 : Option Nat))] "a" (some 2) =
      .error (duplicateMsg "a") ∧
    pyLookup [("a", (some 1 : Option Nat))] "a" = some (some 1) :=
  nodeDict_first_write_wins "a" 1 (some 2) (by decide)

/-- C2 counterexample: a key that is already present in the registry but
mapped to Python `None` does not make the next registration fail — the
registration succeeds and overwrites, so not every registration attempt
for a present key raises the duplicate-key error. -/
theorem nodeDict_duplicate_message_counterexample :
    (pyLookup [("a", (Option.none : Option Nat))] "a").isSome = true ∧
    NodeDict.setItem [("a", (Option.none : Option Nat))] "a" (some 1) =
      .ok [("a", some 1)] :=
  ⟨rfl, rfl⟩

/-- C2 (amended): for every identifier `k` present in the registry with a
non-`None` value, any registration attempt for `k` fails with the exact
message `"Key '<k>' already exists. Duplicate keys are not allowed in a
node dictionary."`. -/
theorem nodeDict_duplicate_message {ν : Type} (d : NodeDict ν) (k : String) (x : ν)
    (v : Option ν) (h : pyLookup d k = some (some x)) :
    NodeDict.setItem d k v = .error (duplicateMsg k) := by
  simp [NodeDict.setItem, NodeDict.get, h]

theorem nodeDict_duplicate_message_witness :
    NodeDict.setItem [("a", (some 1 : Option Nat))] "a" (some 2) =
      .error (duplicateMsg "a") :=
  nodeDict_duplicate_message [("a", some 1)] "a" 1 (some 2) rfl

/-- C3: for every identifier `k` not yet present in the registry and every
node value `v`, registering `k → v` succeeds and a subsequent lookup of
`k` returns exactly `v`. -/
theorem nodeDict_register_lookup {ν : Type} (d : NodeDict ν) (k : String) (v : Option ν)
    (h : pyLookup d k = Option.none) :
    NodeDict.setItem d k v = .ok (dictSet d k v) ∧
    pyLookup (dictSet d k v) k = some v := by
  constructor
  · simp [NodeDict.setItem, NodeDict.get, h]
  · exact pyLookup_dictSet_self d k v

theorem nodeDict_register_lookup_witness :
    NodeDict.setItem [("b", (some 0 : Option Nat))] "a" (some 5) =
      .ok [("b", some 0), ("a", some 5)] ∧
    pyLookup (dictSet [("b", (some 0 : Option Nat))] "a" (some 5)) "a" = some (some 5) :=
  nodeDict_register_lookup [("b", some 0)] "a" (some 5) rfl

/-- C9: for every identifier `k` whose stored value is Python `None`, a
subsequent registration `k → v` succeeds and silently overwrites the
`None` entry (the duplicate check `super().get(key) is None` cannot tell a
`None`-valued entry from an absent key), and the lookup afterwards
returns `v`. -/
theorem nodeDict_none_value_overwritten {ν : Type} (d : NodeDict ν) (k : String)
    (v : Option ν) (h : pyLookup d k = some Option.none) :
    NodeDict.setItem d k v = .ok (dictSet d k v) ∧
    pyLookup (dictSet d k v) k = some v := by
  constructor
  · simp [NodeDict.setItem, NodeDict.get, h]
  · exact pyLookup_dictSet_self d k v

theorem nodeDict_none_value_overwritten_witness :
    NodeDict.setItem [("a", (Option.none : Option Nat))] "a" (some 3) =
      .ok [("a", some 3)] ∧
    pyLookup (dictSet [("a", (Option.none : Option Nat))] "a" (some 3)) "a" =
      some (some 3) :=
  nodeDict_none_value_overwritten [("a", Option.none)] "a" (some 3) rfl

/-! ### Claims about energy-system initialisation -/

/-- C4: when the debug flag is not set to `True`, initialising the energy
system with an integer year yields a time index of exactly 8784 steps for
a leap year and 8760 for a non-leap year; in debug configuration the time
index has exactly 3 steps regardless of the year value. -/
theorem energy_system_step_counts (db : Option Bool) (y : Int) (yv : YearVal)
    (h : db ≠ some true) :
    (initialise_energy_system (ν := Unit) (α := Unit) db (.pyInt y)).map
        EnergySystem.timeindexPeriods = .ok (if isleap y then 8784 else 8760) ∧
    (initialise_energy_system (ν := Unit) (α := Unit) (some true) yv).map
        EnergySystem.timeindexPeriods = .ok 3 := by
  constructor
  · rw [initialise_energy_system, if_neg h]
    cases hy : isleap y <;> simp [isleapPy, hy, Except.map]
  · rfl

theorem energy_system_step_counts_witness :
    (initialise_energy_system (ν := Unit) (α := Unit) Option.none (.pyInt 2019)).map
        EnergySystem.timeindexPeriods = .ok 8760 ∧
    (initialise_energy_system (ν := Unit) (α := Unit) Option.none (.pyInt 2020)).map
        EnergySystem.timeindexPeriods = .ok 8784 ∧
    (initialise_energy_system (ν := Unit) (α := Unit) (some true) .pyNone).map
        EnergySystem.timeindexPeriods = .ok 3 := by
  have h19 := energy_system_step_counts Option.none 2019 .pyNone (by simp)
  have h20 := energy_system_step_counts Option.none 2020 .pyNone (by simp)
  refine ⟨?_, ?_, h19.2⟩
  · have := h19.1
    rwa [show isleap 2019 = false by decide, if_neg (by simp)] at this
  · have := h20.1
    rwa [show isleap 2020 = true by decide, if_pos rfl] at this

/-- C5: when the debug flag is not set to `True` and the year value is not
an integer (e.g. `None` or a string), initialising the energy system
fails with the `TypeError` message naming the offending year value. -/
theorem energy_system_bad_year_error (db : Option Bool) (yv : YearVal)
    (h1 : db ≠ some true) (h2 : ∀ n, yv ≠ .pyInt n) :
    initialise_energy_system (ν := Unit) (α := Unit) db yv =
      .error ("You cannot create an EnergySystem with self.year = " ++ pyStrOf yv) := by
  rw [initialise_energy_system, if_neg h1]
  cases yv with
  | pyInt n => exact absurd rfl (h2 n)
  | pyStr s => rfl
  | pyNone => rfl

theorem energy_system_bad_year_error_witness :
    initialise_energy_system (ν := Unit) (α := Unit) Option.none .pyNone =
      .error "You cannot create an EnergySystem with self.year = None" :=
  energy_system_bad_year_error Option.none .pyNone (by simp) (fun n h => by cases h)

/-! ### Claims about the table completeness check -/


theorem foldl_collect_eq {σ τ : Type} (q : σ × τ → Bool) (l : List (σ × τ))
    (acc : List σ) :
    l.foldl (fun c p => if q p then c ++ [p.1] else c) acc =
      acc ++ (l.filter q).map Prod.fst := by
  induction l generalizing acc with
  | nil => simp
  | cons p t ih =>
      by_cases hp : q p
      · simp [List.filter_cons, hp, ih]
      · simp [List.filter_cons, hp, ih]

theorem nullColumns_eq (df : Table) :
    nullColumns df =
      (df.filter (fun p => p.2.any (fun x => x.isNone))).map Prod.fst := by
  unfold nullColumns
  simpa using foldl_collect_eq (fun p => p.2.any (fun x => x.isNone)) df []

/-- C6: for a table of the collection, the completeness check succeeds
silently iff the table contains no missing value; when some value is
missing it fails with the message naming that table and the column list
collected by the loop; and that list enumerates exactly the columns that
contain a missing value. -/
theorem check_table_spec {ν α : Type} (s : Scenario ν α) (table_name : String)
    (df : Table) (h : pyLookup s.table_collection table_name = some df) :
    (check_table s table_name = .ok () ↔ ¬ ∃ p ∈ df, Option.none ∈ p.2) ∧
    ((∃ p ∈ df, Option.none ∈ p.2) →
      check_table s table_name = .error (checkMsg table_name (nullColumns df))) ∧
    (∀ col, col ∈ nullColumns df ↔ ∃ cells, (col, cells) ∈ df ∧ Option.none ∈ cells) := by
  have hnul : (df.any (fun p => p.2.any (fun x => x.isNone)) = true) ↔
      ∃ p ∈ df, Option.none ∈ p.2 := by
    simp only [List.any_eq_true, Option.isNone_iff_eq_none]
    constructor
    · rintro ⟨p, hp, x, hx, hxn⟩
      exact ⟨p, hp, hxn ▸ hx⟩
    · rintro ⟨p, hp, hx⟩
      exact ⟨p, hp, Option.none, hx, rfl⟩
  refine ⟨?_, ?_, ?_⟩
  · rw [check_table, h]
    by_cases hc : df.any (fun p => p.2.any (fun x => x.isNone)) = true
    · simp only [if_pos hc]
      simp only [hnul] at hc
      simpa using hc
    · simp only [if_neg hc]
      simp only [hnul] at hc
      simpa using hc
  · intro hex
    rw [check_table, h]
    simp only [if_pos (hnul.mpr hex)]
  · intro col
    rw [nullColumns_eq]
    simp only [List.mem_map, List.mem_filter]
    constructor
    · rintro ⟨p, ⟨hp, hnp⟩, hfst⟩
      obtain ⟨x, hx, hxn⟩ := List.any_eq_true.mp hnp
      exact ⟨p.2, by rw [← hfst]; exact hp, (Option.isNone_iff_eq_none.mp hxn) ▸ hx⟩
    · rintro ⟨cells, hmem, hx⟩
      exact ⟨(col, cells), ⟨hmem, List.any_eq_true.mpr ⟨Option.none, hx, rfl⟩⟩, rfl⟩

theorem check_table_spec_witness :
    check_table ({ table_collection :=
        [("heat", [("a", [some 1, Option.none]), ("b", [some 2])])] } : Scenario Unit Unit)
      "heat" =
      .error (checkMsg "heat"
        (nullColumns [("a", [some 1, Option.none]), ("b", [some 2])])) ∧
    "a" ∈ nullColumns [("a", [some 1, Option.none]), ("b", [some 2])] ∧
    check_table ({ table_collection := [("power", [("c", [some 3])])] } : Scenario Unit Unit)
      "power" = .ok () := by
  have h := check_table_spec
    ({ table_collection :=
        [("heat", [("a", [some 1, Option.none]), ("b", [some 2])])] } : Scenario Unit Unit)
    "heat" [("a", [some 1, Option.none]), ("b", [some 2])] rfl
  have h2 := check_table_spec
    ({ table_collection := [("power", [("c", [some 3])])] } : Scenario Unit Unit)
    "power" [("c", [some 3])] rfl
  refine ⟨h.2.1 ⟨("a", [some 1, Option.none]), by simp, by simp⟩, ?_, ?_⟩
  · exact (h.2.2 "a").mpr ⟨[some 1, Option.none], by simp, by simp⟩
  · exact h2.1.mpr (by simp)

/-! ### Claims about the table-collection round trip -/

theorem string_data_append (a b : String) : (a ++ b).data = a.data ++ b.data := by
  cases a; cases b; rfl

theorem string_append_right_cancel (c : String) :
    Function.Injective (fun s : String => s ++ c) := by
  intro a b h
  have h' : a ++ c = b ++ c := h
  have hd : a.data ++ c.data = b.data ++ c.data := by
    rw [← string_data_append, ← string_data_append, h']
  have hab : a.data = b.data := List.append_cancel_right hd
  exact congrArg String.mk hab

theorem pyEndsCsv_append (x : String) : pyEndsCsv (x ++ ".csv") = true := by
  simp only [pyEndsCsv, string_data_append, decide_eq_true_eq]
  have hl : (x.data ++ ".csv".data).length - 4 = x.data.length := by simp
  rw [hl, List.drop_left]

theorem pyDropExt_append (x : String) : pyDropExt (x ++ ".csv") = x := by
  simp only [pyDropExt, string_data_append]
  have hl : (x.data ++ ".csv".data).length - 4 = x.data.length := by simp
  rw [hl, List.take_left x.data ".csv".data]

theorem to_csv_foldl (tc : List (String × Table)) (dir : List (String × Table))
    (hnd : (tc.map (fun p => csvFileName p.1)).Nodup)
    (hdisj : ∀ q ∈ tc, ∀ p ∈ dir, p.1 ≠ csvFileName q.1) :
    tc.foldl (fun dir p => dictSet dir (csvFileName p.1) p.2) dir =
      dir ++ tc.map (fun p => (csvFileName p.1, p.2)) := by
  induction tc generalizing dir with
  | nil => simp
  | cons q t ih =>
      obtain ⟨qn, qt⟩ := q
      have hstep : dictSet dir (csvFileName qn) qt = dir ++ [(csvFileName qn, qt)] :=
        dictSet_append_of_not_mem _ _ _ (fun p hp => hdisj (qn, qt) (by simp) p hp)
      have hhead : csvFileName qn ∉ t.map (fun p => csvFileName p.1) := by
        simpa using hnd.not_mem
      rw [List.foldl_cons, hstep,
        ih (dir ++ [(csvFileName qn, qt)]) (hnd.of_cons) ?_]
      · simp
      · intro q' hq' p hp
        rcases List.mem_append.mp hp with hin | hin
        · exact hdisj q' (List.mem_cons_of_mem _ hq') p hin
        · have hp1 : p.1 = csvFileName qn := by
            simp at hin
            rw [hin]
          rw [hp1]
          intro hctr
          exact hhead (hctr ▸ List.mem_map_of_mem (fun p => csvFileName p.1) hq')

theorem to_csv_eq (tc : List (String × Table))
    (hnd : (tc.map (fun p => csvFileName p.1)).Nodup) :
    to_csv tc = tc.map (fun p => (csvFileName p.1, p.2)) := by
  simpa using to_csv_foldl tc [] hnd (by simp)

theorem load_csv_map (tc : List (String × Table)) :
    load_csv (tc.map (fun p => (csvFileName p.1, p.2))) =
      tc.map (fun p => (strReplaceSpace p.1, p.2)) := by
  induction tc with
  | nil => rfl
  | cons q t ih =>
      simp only [List.map_cons, load_csv, List.filterMap_cons] at *
      rw [show csvFileName q.1 = strReplaceSpace q.1 ++ ".csv" from rfl]
      rw [pyEndsCsv_append, pyDropExt_append]
      simpa using ih

/-- C7 counterexample: two distinct table names that normalise to the same
file name (`"a b"` and `"a_b"` both map to `a_b.csv`) make the CSV dump
overwrite the first table with the second, so reloading the collection
yields a single table whose content is the second table's — the first
table's content is lost and the round trip does not reproduce the
collection. -/
theorem csv_roundtrip_counterexample :
    to_csv [("a b", [("c", [some 1])]), ("a_b", [("c", [some 2])])] =
      [("a_b.csv", [("c", [some 2])])] ∧
    load_csv (to_csv [("a b", [("c", [some 1])]), ("a_b", [("c", [some 2])])]) =
      [("a_b", [("c", [some 2])])] ∧
    ([("c", [some 1])] : Table) ≠ [("c", [some 2])] := by
  refine ⟨by decide, by decide, by decide⟩

/-- C7 (amended): saving any table collection to the spreadsheet format
and reloading yields a permutation of the collection (same set of table
names, same content per table; sheet serialisation itself is delegated
and modelled as faithful); saving to the CSV format and reloading yields
exactly the collection with each table name normalised by the
underscore-for-space substitution, provided no two table names normalise
to the same name (otherwise later tables overwrite earlier ones, see the
counterexample). -/
theorem table_collection_roundtrip (tc : List (String × Table)) :
    (load_excel (to_excel tc)).Perm tc ∧
    ((tc.map (fun p => strReplaceSpace p.1)).Nodup →
      load_csv (to_csv tc) = tc.map (fun p => (strReplaceSpace p.1, p.2))) := by
  constructor
  · exact List.perm_insertionSort _ tc
  · intro hc
    have hfn : (tc.map (fun p => csvFileName p.1)).Nodup := by
      have : tc.map (fun p => csvFileName p.1) =
          (tc.map (fun p => strReplaceSpace p.1)).map (fun s => s ++ ".csv") := by
        rw [List.map_map]; rfl
      rw [this]
      exact hc.map (string_append_right_cancel ".csv")
    rw [to_csv_eq tc hfn, load_csv_map]

theorem table_collection_roundtrip_witness :
    (load_excel (to_excel [("a b", [("c", [some 1])]), ("a_b", [("c", [some 2])])])).Perm
      [("a b", [("c", [some 1])]), ("a_b", [("c", [some 2])])] ∧
    (load_excel (to_excel [("b t", [("c", [some 1])]), ("a", [("d", [some 2])])])).Perm
      [("b t", [("c", [some 1])]), ("a", [("d", [some 2])])] ∧
    load_csv (to_csv [("b t", [("c", [some 1])]), ("a", [("d", [some 2])])]) =
      [("b_t", [("c", [some 1])]), ("a", [("d", [some 2])])] := by
  have hcol := table_collection_roundtrip
    [("a b", [("c", [some 1])]), ("a_b", [("c", [some 2])])]
  have h := table_collection_roundtrip
    [("b t", [("c", [some 1])]), ("a", [("d", [some 2])])]
  exact ⟨hcol.1, h.1, (h.2 (by decide)).trans (by decide)⟩

/-! ### Claims about solve and add_nodes -/

/-- C8: on every scenario on which `solve` completes (model built, energy
system initialised with no prior results, location recorded), exactly the
four facets `main`, `meta`, `param` and `scenario` are captured on
the energy system's results — the primary results, the solve metadata
(with the location, file date and oemof version written into it), the
parameter snapshot and the scenario metadata — and the scenario's
`results` attribute is set to the primary results. -/
theorem solve_captures_four_facets {ν α : Type} (s : Scenario ν α)
    (es : EnergySystem ν α) (loc : String) (pm pme pp fd now : α) (ver : String)
    (hm : s.model = some ()) (he : s.es = some es) (hr : es.results = [])
    (hl : s.location = some loc) :
    solve s pm pme pp fd now ver = some
      { s with
        es := some { es with results :=
          [("main", Facet.mainF pm),
           ("meta", Facet.metaF pme (some loc) (some fd) (some ver)),
           ("param", Facet.paramF pp),
           ("scenario", Facet.scenF s.name now s.year)] },
        results := some (Facet.mainF pm) } := by
  obtain ⟨tix, nodes0, res⟩ := es
  have hr' : res = [] := hr
  subst hr'
  rw [solve, hm, he, hl]
  rfl

theorem solve_captures_four_facets_witness :
    solve ({ model := some (), es := some ⟨8760, [], []⟩,
             location := some "scenario.xls", name := "demo",
             year := .pyInt 2014 } : Scenario Nat Nat) 1 2 3 4 5 "0.2.3" = some
      { ({ model := some (), es := some ⟨8760, [], []⟩,
           location := some "scenario.xls", name := "demo",
           year := .pyInt 2014 } : Scenario Nat Nat) with
        es := some ⟨8760, [],
          [("main", Facet.mainF 1),
           ("meta", Facet.metaF 2 (some "scenario.xls") (some 4) (some "0.2.3")),
           ("param", Facet.paramF 3),
           ("scenario", Facet.scenF "demo" 5 (.pyInt 2014))]⟩,
        results := some (Facet.mainF 1) } :=
  solve_captures_four_facets _ ⟨8760, [], []⟩ "scenario.xls" 1 2 3 4 5 "0.2.3"
    rfl rfl rfl rfl

/-- C10: `add_nodes` initialises the energy system from the scenario's
current year and debug settings when it is not yet initialised (adding the
given node values to the fresh system), and leaves an already initialised
energy system as it is, only appending the node values. -/
theorem add_nodes_initialises_first {ν α : Type} (s : Scenario ν α)
    (nds : NodeDict ν) (e es0 : EnergySystem ν α) :
    (s.es = Option.none → initialise_energy_system s.debug s.year = .ok es0 →
      add_nodes s nds =
        .ok { s with es := some { es0 with nodes := es0.nodes ++ nds.map Prod.snd } }) ∧
    (s.es = some e →
      add_nodes s nds =
        .ok { s with es := some { e with nodes := e.nodes ++ nds.map Prod.snd } }) := by
  constructor
  · intro h1 h2
    rw [add_nodes, h1, h2]
  · intro h1
    rw [add_nodes, h1]

theorem add_nodes_initialises_first_witness :
    add_nodes ({ year := .pyInt 2014 } : Scenario Nat Nat) [("n1", some 7)] =
      .ok { ({ year := .pyInt 2014 } : Scenario Nat Nat) with
            es := some ⟨8760, [some 7], []⟩ } ∧
    add_nodes ({ es := some ⟨3, [some 1], []⟩ } : Scenario Nat Nat) [("n2", some 8)] =
      .ok { ({ es := some ⟨3, [some 1], []⟩ } : Scenario Nat Nat) with
            es := some ⟨3, [some 1, some 8], []⟩ } := by
  constructor
  · exact (add_nodes_initialises_first ({ year := .pyInt 2014 } : Scenario Nat Nat)
      [("n1", some 7)] ⟨0, [], []⟩ ⟨8760, [], []⟩).1 rfl rfl
  · exact (add_nodes_initialises_first ({ es := some ⟨3, [some 1], []⟩ } : Scenario Nat Nat)
      [("n2", some 8)] ⟨3, [some 1], []⟩ ⟨0, [], []⟩).2 rfl
